import Mathlib

/-!
Verification of the splice-compatibility prediction engine (spliced).

Shallow embedding of `src/spliced/predict/symbols.py`,
`src/spliced/predict/libabigail.py` and `src/spliced/predict/smeagle/__init__.py`.
Python dicts are modelled as association lists that preserve insertion order
(keys are distinct in every dict the code builds); Python sets are modelled
as duplicate-free lists built by insert-if-new; dict indexing that can raise
`KeyError` is modelled with `Option`.
-/

namespace Spliced

/-- Split a character list at every occurrence of `c` (the semantics of
Python `str.split(c)` on a single-character separator), written with
structural recursion so it evaluates inside the kernel. -/
def splitOnChar (c : Char) : List Char → List (List Char)
  | [] => [[]]
  | x :: xs =>
    if x == c then [] :: splitOnChar c xs
    else
      match splitOnChar c xs with
      | ys :: rest => (x :: ys) :: rest
      | [] => [[x]]

/-- `os.path.basename`: the path component after the last `/`. -/
def basename (p : String) : String :=
  String.mk ((splitOnChar '/' p.toList).getLastD p.toList)

/-- Modelled from the spec (`get_prefix` lives in the missing `base` module):
the identity key of a library path is the basename truncated at the first `.`
(drops version/suffix).  The same formula appears inline in
`libabigail.py` as `os.path.basename(lib).split(".")[0]`. -/
def get_prefix (p : String) : String :=
  String.mk ((splitOnChar '.' ( basename p).toList).headD [])

/-- `xs` starts with `pre`, on character lists. -/
def startsWithList : List Char → List Char → Bool
  | _, [] => true
  | [], _ :: _ => false
  | x :: xs, y :: ys => x == y && startsWithList xs ys

/-- Python `s.startswith(pre)`, written over character lists so it evaluates
inside the kernel. -/
def strStartsWith (s pre : String) : Bool :=
  startsWithList s.toList pre.toList

/-- `str.strip(os.sep)`: remove leading and trailing `/` characters. -/
def stripSep (s : String) : String :=
  String.mk (((s.toList.dropWhile (· == '/')).reverse.dropWhile (· == '/')).reverse)

/-- A record message is either a plain string or a list of symbol names,
mirroring the Python code that stores either shape in `"message"`. -/
inductive Msg where
  | str : String → Msg
  | list : List String → Msg
deriving DecidableEq, Repr

/-- The per-library/per-binary symbol map (`splice.metadata[path]`):
`found` maps each symbol to the `realpath` of its resolving library when the
entry carries a `"lib"` key (`none` models an entry without one), `missing`
is the loader's list of unresolved symbols, and `exported` holds the keys of
the exported-symbol mapping (the metadata values are never read). -/
structure SymbolMap where
  found : List (String × Option String)
  missing : List String
  exported : List String
deriving DecidableEq, Repr

/-- A dependency match `{"original": path, "spliced": path}`. -/
structure DepMatch where
  original : String
  spliced : String
deriving DecidableEq, Repr

/-- Modelled from the spec (`match_by_prefix` lives in the missing `base`
module): given two mappings keyed by library path, for each key present in
both sides under the same identity key (basename before the first `.`),
emit one match pairing the two mapped values. -/
def match_by_prefix (origDeps splicedDeps : List (String × String)) : List DepMatch :=
  origDeps.filterMap fun kv =>
    match splicedDeps.find? (fun kv2 => get_prefix kv2.1 == get_prefix kv.1) with
    | some kv2 => some ⟨kv.2, kv2.2⟩
    | none => none

/-- A symbol-graph PredictionRecord as built in `symbols.py`; the
`original_lib`/`spliced_lib` fields are only present on per-match records. -/
structure PredictionRecord where
  binary : String
  splice_type : String
  command : String
  message : Msg
  prediction : Bool
  original_lib : Option String := none
  spliced_lib : Option String := none
deriving DecidableEq, Repr

/-- The symbols of `m.found` resolved by the library whose `realpath` equals
`path` (the `before`/`after` comprehensions of
`missing_previously_found_symbols`). -/
def symbolsResolvedBy (m : SymbolMap) (path : String) : List String :=
  m.found.filterMap fun se =>
    match se.2 with
    | some rp => if rp == path then some se.1 else none
    | none => none

/-- `missing_previously_found_symbols` (symbols.py lines 138-167). -/
def missing_previously_found_symbols (binary : String)
    (original_symbols spliced_symbols : SymbolMap) (m : DepMatch) :
    PredictionRecord :=
  let before := symbolsResolvedBy original_symbols m.original
  let after := symbolsResolvedBy spliced_symbols m.spliced
  let missing_symbols := before.filter fun x => !(after.contains x)
  { binary := binary
    splice_type := "same_lib"
    original_lib := some m.original
    spliced_lib := some m.spliced
    command := "missing-previously-found-symbols"
    message := Msg.list missing_symbols
    prediction := missing_symbols.isEmpty }

/-- `missing_previously_found_exports` (symbols.py lines 114-135). -/
def missing_previously_found_exports (binary : String) (m : DepMatch)
    (original_symbols spliced_symbols : SymbolMap) : PredictionRecord :=
  let before := original_symbols.exported
  let after := spliced_symbols.exported
  let missing_symbols := before.filter fun x => !(after.contains x)
  { binary := binary
    splice_type := "same_lib"
    original_lib := some m.original
    spliced_lib := some m.spliced
    command := "missing-previously-found-exports"
    message := Msg.list missing_symbols
    prediction := missing_symbols.isEmpty }

/-- `compress_symbol_set` (symbols.py lines 209-218): keep only `found`
entries that carry a `"lib"` key and map each symbol to the identity key of
its resolving library. -/
def compress_symbol_set (symbols : List (String × Option String)) :
    List (String × String) :=
  symbols.filterMap fun sm =>
    sm.2.map fun rp => (sm.1, get_prefix rp)

/-- The entry of the elfcall dependency lookup for one binary:
`{"lib": fullpath, "deps": mapping}`.  The lookup itself is produced by
`create_elfcall_deps_lookup` in the missing `base` module, so it is taken
as input here. -/
structure DepsMeta where
  lib : String
  deps : List (String × String)
deriving DecidableEq, Repr

/-- The splice description as the symbols predictor consumes it:
`different_libs` flag, the metadata store, and the two elfcall dependency
lookups (original and spliced), produced by the external collaborator. -/
structure Splice where
  different_libs : Bool
  metadata : List (String × SymbolMap)
  original_deps : List (String × DepsMeta)
  spliced_deps : List (String × DepsMeta)
deriving DecidableEq, Repr

/-- `check_symbol_provisioner_change` (symbols.py lines 170-206).  Returns
`none` when a metadata lookup would raise `KeyError`.  Note the appended
string for a symbol missing in the splice is the literal
`"symbol {symbol} is missing in splice"`: the source line lacks the
f-string prefix, so the placeholder is not interpolated. -/
def check_symbol_provisioner_change (metadata : List (String × SymbolMap))
    (meta spliced_meta : DepsMeta) : Option PredictionRecord :=
  match metadata.lookup meta.lib, metadata.lookup spliced_meta.lib with
  | some binary_symbols, some spliced_symbols =>
    let original_symbols := compress_symbol_set binary_symbols.found
    let splicedC := compress_symbol_set spliced_symbols.found
    let changed := original_symbols.filterMap fun sp =>
      match splicedC.lookup sp.1 with
      | none => some "symbol {symbol} is missing in splice"
      | some q =>
        if q ≠ sp.2 then
          some ("symbol " ++ sp.1 ++ " was originally provided by " ++ sp.2 ++
            ", after splice is provided by " ++ q)
        else none
    some
      { binary := meta.lib
        splice_type := "same_lib"
        command := "binary-checks-symbol-provisioner-change"
        message := Msg.str ("Symbol provider changes: " ++ String.intercalate "\n" changed)
        prediction := changed.isEmpty }
  | _, _ => none

/-- The per-match tail of the loop body of `splice_equivalent_libs`
(symbols.py lines 82-108): always append the missing-previously-found-symbols
record; append the missing-previously-found-exports record only when both
`"original:<path>"` and `"spliced:<path>"` are present in the metadata. -/
def processMatch (metadata : List (String × SymbolMap)) (binary_fullpath : String)
    (binary_symbols spliced_symbols : SymbolMap) (m : DepMatch) :
    List PredictionRecord :=
  let symRec := missing_previously_found_symbols binary_fullpath binary_symbols
    spliced_symbols m
  match metadata.lookup ("original:" ++ m.original),
      metadata.lookup ("spliced:" ++ m.spliced) with
  | some om, some sm => [symRec, missing_previously_found_exports binary_fullpath m om sm]
  | _, _ => [symRec]

/-- One iteration of the per-binary loop of `splice_equivalent_libs`
(symbols.py lines 38-108): skip binaries absent from the spliced lookup,
gate on the original binary's `missing` list, then emit the
provisioner-change record followed by the per-match records.  `none` models
a `KeyError` on a metadata lookup. -/
def processBinary (sp : Splice) (binary : String) (meta : DepsMeta) :
    Option (List PredictionRecord) :=
  match sp.spliced_deps.lookup binary with
  | none => some []
  | some spliced_meta =>
    match sp.metadata.lookup meta.lib with
    | none => none
    | some binary_symbols =>
      if !binary_symbols.missing.isEmpty then
        some [{ binary := meta.lib
                splice_type := "same_lib"
                command := "binary-checks-loader-missing-symbols-for-original"
                message := Msg.str ("Loader found missing symbols for original binary: " ++
                  String.intercalate "\n" binary_symbols.missing)
                prediction := false }]
      else
        match sp.metadata.lookup spliced_meta.lib with
        | none => none
        | some spliced_symbols =>
          match check_symbol_provisioner_change sp.metadata meta spliced_meta with
          | none => none
          | some changeRec =>
            some (changeRec ::
              ( match_by_prefix meta.deps spliced_meta.deps).flatMap
                (processMatch sp.metadata meta.lib binary_symbols spliced_symbols))

/-- `splice_equivalent_libs` (symbols.py lines 25-111): the concatenation of
the per-binary record lists, in lookup order. -/
def splice_equivalent_libs (sp : Splice) : Option (List PredictionRecord) :=
  (sp.original_deps.mapM fun bm => processBinary sp bm.1 bm.2).map List.flatten

/-- The error raised by `SymbolsPrediction.splice_different_libs`. -/
inductive PredictError where
  | notImplementedError
deriving DecidableEq, Repr

/-- `SymbolsPrediction.predict` (symbols.py lines 11-23): dispatch on
`splice.different_libs`; the different-libs branch raises
`NotImplementedError`. -/
def symbols_predict (sp : Splice) :
    Except PredictError (Option (List PredictionRecord)) :=
  if sp.different_libs then Except.error PredictError.notImplementedError
  else Except.ok (splice_equivalent_libs sp)

/-- The result of `utils.run_command` for one external-process call:
captured exit code and message. -/
structure CmdResult where
  return_code : Int
  message : String
deriving DecidableEq, Repr

/-- A record built by the libabigail predictor: the `run_command` result dict
with the per-comparison fields added in place. -/
structure AbigailRecord where
  return_code : Int
  message : String
  binary : String
  splice_type : String
  lib : String
  original_lib : Option String := none
  replace : Option String := none
  prediction : Bool
deriving DecidableEq, Repr

/-- `LibabigailPrediction.splice_different_libs` (libabigail.py lines
92-138): cartesian product over binaries, flattened original libs and
flattened replacement libs; one abicompat invocation per triple, modelled by
the oracle `run binary libA libB`. -/
def abigail_splice_different_libs (run : String → String → String → CmdResult)
    (binaries : List String) (original_libs replace_libs : List (List String)) :
    List AbigailRecord :=
  let origs := original_libs.flatten
  let repls := replace_libs.flatten
  binaries.flatMap fun binary =>
    origs.flatMap fun original_lib =>
      repls.map fun replace_lib =>
        let res := run binary original_lib replace_lib
        { return_code := res.return_code
          message := res.message
          binary := binary
          splice_type := "different_lib"
          replace := some replace_lib
          lib := original_lib
          prediction := res.message == "" && res.return_code == 0 }

/-- `LibabigailPrediction.splice_equivalent_libs` (libabigail.py lines
140-199): for every binary and every spliced lib, find the original libs
whose basename starts with the spliced lib's identity key and run abicompat
against each contender; note the record stores the spliced `lib` in both
`lib` and `original_lib`. -/
def abigail_splice_equivalent_libs (run : String → String → String → CmdResult)
    (binaries : List String) (libs original_lib_sets : List (List String)) :
    List AbigailRecord :=
  let original_libs := original_lib_sets.flatten
  binaries.flatMap fun binary =>
    libs.flatMap fun libset =>
      libset.flatMap fun lib =>
        let libprefixKey := get_prefix lib
        let originals := original_libs.filter fun x =>
          strStartsWith ( basename x) libprefixKey
        originals.map fun original =>
          let res := run binary original lib
          { return_code := res.return_code
            message := res.message
            binary := binary
            splice_type := "same_lib"
            lib := lib
            original_lib := some lib
            prediction := res.message == "" && res.return_code == 0 }

/-- The result of the fact extractor (`smeagle.get_smeagle_data`): structured
output (absent or possibly empty) and an exit code; success requires exit
code `0` and non-empty data. -/
structure ExtractResult where
  data : Option String
  return_code : Int
deriving DecidableEq, Repr

/-- The cache key derived in `SmeaglePrediction.generate_cle_data`:
`os.path.join(cache_dir, "<prefix>-<lib stripped of / >.json")`, or without
the `<prefix>-` part when the prefix is empty. -/
def cacheKey (cache_dir lib pfx : String) : String :=
  if pfx ≠ "" then cache_dir ++ "/" ++ pfx ++ "-" ++ stripSep lib ++ ".json"
  else cache_dir ++ "/" ++ stripSep lib ++ ".json"

/-- Outcome of one `generate_cle_data` call: the returned key (or `none` on
extraction failure), the filesystem after the call (path → persisted
content), and how many times the external extractor was invoked. -/
structure GenResult where
  key : Option String
  fs : List (String × String)
  calls : Nat
deriving DecidableEq, Repr

/-- `SmeaglePrediction.generate_cle_data` (smeagle/__init__.py lines
150-175): if a file already exists at the derived key return it; otherwise
invoke the extractor once, persist on success (`return_code == 0` and
non-empty data) and return the key, else return `none` without writing. -/
def generate_cle_data (extract : String → ExtractResult) (cache_dir : String)
    (lib pfx : String) (fs : List (String × String)) : GenResult :=
  let ck := cacheKey cache_dir lib pfx
  if (fs.lookup ck).isSome then ⟨some ck, fs, 0⟩
  else
    let d := extract lib
    match d.data with
    | some content =>
      if content ≠ "" ∧ d.return_code = 0 then ⟨some ck, (ck, content) :: fs, 1⟩
      else ⟨none, fs, 1⟩
    | none => ⟨none, fs, 1⟩

/-- A record appended to `splice.predictions["smeagle"]`.  The immediate
failing record uses all five fields; the structural-comparison result comes
from the opaque `compatible_test` oracle in the same shape. -/
structure SmeagleRecord where
  return_code : Int
  lib : Option String := none
  prediction : Bool
  data : List String := []
  message : String := ""
deriving DecidableEq, Repr

/-- State threaded through the dependency loop of
`SmeaglePrediction.test_lib`: the set of matched symbols, the
`factsKey → symbols` lookup, the cache filesystem, and the number of
`generate_cle_data` invocations (dependency fact gathering). -/
structure GatherState where
  symbols : List String
  deps : List (String × List String)
  fs : List (String × String)
  genCalls : Nat
deriving DecidableEq, Repr

/-- Python `set.add`: append the element only if not already present. -/
def insertNew (x : String) (xs : List String) : List String :=
  if xs.contains x then xs else xs ++ [x]

/-- Add `sym` to the symbol set stored under `k`, creating the entry if
absent (the `deps` dict updates in `test_lib`). -/
def addSym (k sym : String) : List (String × List String) →
    List (String × List String)
  | [] => [(k, [sym])]
  | kv :: rest =>
    if kv.1 = k then (kv.1, insertNew sym kv.2) :: rest
    else kv :: addSym k sym rest

/-- Python dict assignment `m[k] = v`: replace in place or append. -/
def setAssoc (k : String) (v : List String) (m : List (String × List String)) :
    List (String × List String) :=
  if (m.lookup k).isSome then
    m.map fun kv => if kv.1 = k then (k, v) else kv
  else m ++ [(k, v)]

/-- One iteration of the dependency loop of `test_lib` (smeagle/__init__.py
lines 107-126): read the dependency's realpath (KeyError when the `found`
entry has no `"lib"` key), skip system paths, gather facts through the
cache, and on success record the symbol under the dependency's facts key. -/
def stepDep (extract : String → ExtractResult) (cache_dir : String)
    (st : GatherState) (entry : String × Option String) : Option GatherState :=
  match entry.2 with
  | none => none
  | some dep =>
    if strStartsWith dep "/usr" || strStartsWith dep "/lib" then some st
    else
      let g := generate_cle_data extract cache_dir dep "smeagle" st.fs
      match g.key with
      | none => some { st with fs := g.fs, genCalls := st.genCalls + 1 }
      | some ck =>
        some { symbols := insertNew entry.1 st.symbols
               deps := addSym ck entry.1 st.deps
               fs := g.fs
               genCalls := st.genCalls + 1 }

/-- Outcome of one `test_lib` call: the records appended to the smeagle
bucket, the number of `generate_cle_data` invocations for dependencies, and
the number of structural-comparator invocations. -/
structure TestLibOutcome where
  records : List SmeagleRecord
  genCalls : Nat
  compatCalls : Nat
deriving DecidableEq, Repr

/-- `SmeaglePrediction.test_lib` (smeagle/__init__.py lines 78-148): gate on
the spliced library's `missing` list (immediate failing record with
`return_code = -1`), otherwise gather dependency facts and invoke the
structural comparator once, modelled by the opaque oracle
`compat factsPath B_set deps`. -/
def test_lib (extract : String → ExtractResult) (cache_dir : String)
    (compat : String → List String → List (String × List String) → SmeagleRecord)
    (metadata : List (String × SymbolMap)) (lib facts_path : String)
    (fs : List (String × String)) : Option TestLibOutcome :=
  match metadata.lookup lib with
  | none => none
  | some sm =>
    if !sm.missing.isEmpty then
      some ⟨[{ return_code := -1
               lib := some lib
               prediction := false
               data := sm.missing
               message := "Library is missing symbols, so smeagle model would fail." }],
        0, 0⟩
    else
      match sm.found.foldlM (stepDep extract cache_dir) ⟨[], [], fs, 0⟩ with
      | none => none
      | some st =>
        let bSet := st.deps.map Prod.fst
        let depsAll := setAssoc facts_path st.symbols st.deps
        some ⟨[compat facts_path bSet depsAll], st.genCalls, 1⟩

/-- The cache-directory decision at the start of `SmeaglePrediction.predict`
(smeagle/__init__.py lines 39-54 and 75-76): `cache_dir` is the environment
variable when set, else the temp-rooted default; `cleanup` starts `False`,
the first branch creates the directory when it does not exist, and the
`elif not self.cache_dir` branch replaces it with a fresh temp dir and sets
`cleanup = True`.  At the end of the run the directory is removed iff
`cleanup` is true and the directory exists. -/
structure CacheSetup where
  cache_dir : String
  cleanup : Bool
deriving DecidableEq, Repr

/-- See `CacheSetup`.  `env_cache_dir` is `os.environ.get`'s view of
`SPLICED_SMEAGLE_CACHE_DIR`, `tmpdir` is `tempfile.gettempdir()`,
`path_exists` is `os.path.exists`, and `fresh_tmp` is the directory
`utils.tempdir()` would create. -/
def smeagle_cache_setup (env_cache_dir : Option String) (tmpdir : String)
    (path_exists : String → Bool) (fresh_tmp : String) : CacheSetup :=
  let cache_dir := env_cache_dir.getD (tmpdir ++ "/spliced-cache")
  if cache_dir ≠ "" ∧ !path_exists cache_dir then ⟨cache_dir, false⟩
  else if cache_dir = "" then ⟨fresh_tmp, true⟩
  else ⟨cache_dir, false⟩

/-- Whether `SmeaglePrediction.predict` removes the cache directory at the
end of the run (`if cleanup and os.path.exists(self.cache_dir):
shutil.rmtree(...)`). -/
def smeagle_cache_removed (cs : CacheSetup) (exists_at_end : Bool) : Bool :=
  cs.cleanup && exists_at_end

/-! ## Theorems for the claims -/

/-- Claim C1: for the symbol-graph predictor, a top-level binary whose
original symbol map has a non-empty `missing` list yields exactly one
PredictionRecord (prediction `false`, splice type `same_lib`, the
loader-missing command) and no other symbol-graph records for that binary. -/
theorem c1_original_missing_gate (sp : Splice) (binary : String)
    (meta spliced_meta : DepsMeta) (binary_symbols : SymbolMap)
    (hs : sp.spliced_deps.lookup binary = some spliced_meta)
    (hm : sp.metadata.lookup meta.lib = some binary_symbols)
    (hmiss : binary_symbols.missing ≠ []) :
    processBinary sp binary meta =
      some [{ binary := meta.lib
              splice_type := "same_lib"
              command := "binary-checks-loader-missing-symbols-for-original"
              message := Msg.str ("Loader found missing symbols for original binary: " ++
                String.intercalate "\n" binary_symbols.missing)
              prediction := false }] := by
  simp [processBinary, hs, hm, List.isEmpty_iff, hmiss]

/-- Witness for C1 at a concrete splice with one missing symbol. -/
theorem c1_original_missing_gate_witness :
    processBinary
      ⟨false, [("/bin/app", ⟨[], ["foo"], []⟩)],
        [("app", ⟨"/bin/app", []⟩)], [("app", ⟨"/spl/app", []⟩)]⟩
      "app" ⟨"/bin/app", []⟩ =
      some [{ binary := "/bin/app"
              splice_type := "same_lib"
              command := "binary-checks-loader-missing-symbols-for-original"
              message := Msg.str ("Loader found missing symbols for original binary: " ++
                String.intercalate "\n" ["foo"])
              prediction := false }] :=
  c1_original_missing_gate
    ⟨false, [("/bin/app", ⟨[], ["foo"], []⟩)],
      [("app", ⟨"/bin/app", []⟩)], [("app", ⟨"/spl/app", []⟩)]⟩
    "app" ⟨"/bin/app", []⟩ ⟨"/spl/app", []⟩ ⟨[], ["foo"], []⟩
    (by decide) (by decide) (by decide)

/-- Claim C2: the missing-previously-found-symbols check computes `missing`
as the before-symbols (resolved by the match's original library) not among
the after-symbols (resolved by the match's spliced library), and its
prediction is true iff every before-symbol is also an after-symbol. -/
theorem c2_missing_symbols_subset (binary : String)
    (original_symbols spliced_symbols : SymbolMap) (m : DepMatch) :
    (missing_previously_found_symbols binary original_symbols spliced_symbols m).message
      = Msg.list ((symbolsResolvedBy original_symbols m.original).filter
          fun x => !((symbolsResolvedBy spliced_symbols m.spliced).contains x)) ∧
    ((missing_previously_found_symbols binary original_symbols spliced_symbols m).prediction
        = true ↔
      ∀ s ∈ symbolsResolvedBy original_symbols m.original,
        s ∈ symbolsResolvedBy spliced_symbols m.spliced) := by
  refine ⟨rfl, ?_⟩
  simp [missing_previously_found_symbols, List.isEmpty_iff, List.filter_eq_nil_iff]

/-- Claim C3 (code bug): at a concrete input where symbol `foo` is resolved
in the original but absent from the spliced map, the provisioner-change
record's message is the literal placeholder text
`symbol {symbol} is missing in splice` — the affected symbol's name never
appears, because the source line lacks the f-string prefix. -/
theorem c3_placeholder_not_interpolated :
    check_symbol_provisioner_change
      [("/bin/app", ⟨[("foo", some "/a/libx.1.so")], [], []⟩),
       ("/spl/app", ⟨[], [], []⟩)]
      ⟨"/bin/app", []⟩ ⟨"/spl/app", []⟩ =
      some { binary := "/bin/app"
             splice_type := "same_lib"
             command := "binary-checks-symbol-provisioner-change"
             message := Msg.str "Symbol provider changes: symbol {symbol} is missing in splice"
             prediction := false } := by
  decide

/-- Claim C9: the symbols predictor raises `NotImplementedError` for a
splice whose `different_libs` flag is set, emitting no records. -/
theorem c9_different_libs_not_implemented (sp : Splice)
    (h : sp.different_libs = true) :
    symbols_predict sp = Except.error PredictError.notImplementedError := by
  simp [symbols_predict, h]

/-- Witness for C9 at a concrete splice with the flag set. -/
theorem c9_different_libs_not_implemented_witness :
    symbols_predict ⟨true, [], [], []⟩ =
      Except.error PredictError.notImplementedError :=
  c9_different_libs_not_implemented ⟨true, [], [], []⟩ rfl

/-- Claim C4: for a dependency match whose `original:<path>` and
`spliced:<path>` keys are both present in the metadata, the per-match step
emits the missing-exports record whose message is the list of symbols
exported before but not after the splice, with prediction true iff that
list is empty; when either key is absent the step emits no missing-exports
record for that match. -/
theorem c4_missing_exports_gated_on_metadata
    (metadata : List (String × SymbolMap)) (b : String)
    (bs ss : SymbolMap) (m : DepMatch) :
    (∀ om sm, metadata.lookup ("original:" ++ m.original) = some om →
      metadata.lookup ("spliced:" ++ m.spliced) = some sm →
      processMatch metadata b bs ss m =
        [missing_previously_found_symbols b bs ss m,
         missing_previously_found_exports b m om sm] ∧
      (missing_previously_found_exports b m om sm).message =
        Msg.list (om.exported.filter fun x => !(sm.exported.contains x)) ∧
      ((missing_previously_found_exports b m om sm).prediction = true ↔
        (om.exported.filter fun x => !(sm.exported.contains x)) = [])) ∧
    ((metadata.lookup ("original:" ++ m.original) = none ∨
      metadata.lookup ("spliced:" ++ m.spliced) = none) →
      processMatch metadata b bs ss m =
        [missing_previously_found_symbols b bs ss m]) := by
  constructor
  · intro om sm h1 h2
    refine ⟨by simp [processMatch, h1, h2], rfl, ?_⟩
    simp [missing_previously_found_exports, List.isEmpty_iff]
  · intro h
    unfold processMatch
    cases h1 : metadata.lookup ("original:" ++ m.original) with
    | none => cases h2 : metadata.lookup ("spliced:" ++ m.spliced) <;> rfl
    | some om =>
      cases h2 : metadata.lookup ("spliced:" ++ m.spliced) with
      | none => rfl
      | some sm => rcases h with h | h <;> simp_all

/-- Witness for C4: the spec's scenario C (exports `{a,b,c}` before, `{a,c}`
after) gives `missing = [b]` and a false prediction, and a match without
export metadata contributes only the missing-symbols record. -/
theorem c4_missing_exports_gated_on_metadata_witness :
    (processMatch
        [("original:/a/libd.1.so", ⟨[], [], ["a", "b", "c"]⟩),
         ("spliced:/b/libd.2.so", ⟨[], [], ["a", "c"]⟩)]
        "/bin/app" ⟨[], [], []⟩ ⟨[], [], []⟩ ⟨"/a/libd.1.so", "/b/libd.2.so"⟩ =
      [missing_previously_found_symbols "/bin/app" ⟨[], [], []⟩ ⟨[], [], []⟩
        ⟨"/a/libd.1.so", "/b/libd.2.so"⟩,
       missing_previously_found_exports "/bin/app" ⟨"/a/libd.1.so", "/b/libd.2.so"⟩
        ⟨[], [], ["a", "b", "c"]⟩ ⟨[], [], ["a", "c"]⟩] ∧
     (missing_previously_found_exports "/bin/app" ⟨"/a/libd.1.so", "/b/libd.2.so"⟩
        ⟨[], [], ["a", "b", "c"]⟩ ⟨[], [], ["a", "c"]⟩).message =
       Msg.list ((["a", "b", "c"] : List String).filter
         fun x => !((["a", "c"] : List String).contains x)) ∧
     ((missing_previously_found_exports "/bin/app" ⟨"/a/libd.1.so", "/b/libd.2.so"⟩
        ⟨[], [], ["a", "b", "c"]⟩ ⟨[], [], ["a", "c"]⟩).prediction = true ↔
       (["a", "b", "c"] : List String).filter
         (fun x => !((["a", "c"] : List String).contains x)) = [])) ∧
    processMatch [] "/bin/app" ⟨[], [], []⟩ ⟨[], [], []⟩
        ⟨"/a/libd.1.so", "/b/libd.2.so"⟩ =
      [missing_previously_found_symbols "/bin/app" ⟨[], [], []⟩ ⟨[], [], []⟩
        ⟨"/a/libd.1.so", "/b/libd.2.so"⟩] :=
  ⟨(c4_missing_exports_gated_on_metadata
      [("original:/a/libd.1.so", ⟨[], [], ["a", "b", "c"]⟩),
       ("spliced:/b/libd.2.so", ⟨[], [], ["a", "c"]⟩)]
      "/bin/app" ⟨[], [], []⟩ ⟨[], [], []⟩ ⟨"/a/libd.1.so", "/b/libd.2.so"⟩).1
    ⟨[], [], ["a", "b", "c"]⟩ ⟨[], [], ["a", "c"]⟩ (by decide) (by decide),
   (c4_missing_exports_gated_on_metadata [] "/bin/app" ⟨[], [], []⟩ ⟨[], [], []⟩
      ⟨"/a/libd.1.so", "/b/libd.2.so"⟩).2 (Or.inl (by decide))⟩

/-- Claim C5: in both pairwise modes every emitted record's prediction is
true iff its captured message is empty and its captured return code is 0. -/
theorem c5_pairwise_prediction_iff (run : String → String → String → CmdResult)
    (binaries : List String) (original_libs replace_libs libs : List (List String)) :
    (∀ r ∈ abigail_splice_different_libs run binaries original_libs replace_libs,
      (r.prediction = true ↔ (r.message = "" ∧ r.return_code = 0))) ∧
    (∀ r ∈ abigail_splice_equivalent_libs run binaries libs original_libs,
      (r.prediction = true ↔ (r.message = "" ∧ r.return_code = 0))) := by
  constructor
  · intro r hr
    simp only [abigail_splice_different_libs, List.mem_flatMap, List.mem_map] at hr
    obtain ⟨binary, _, orig, _, repl, _, rfl⟩ := hr
    simp [Bool.and_eq_true]
  · intro r hr
    simp only [abigail_splice_equivalent_libs, List.mem_flatMap, List.mem_map] at hr
    obtain ⟨binary, _, libset, _, lib, _, orig, _, rfl⟩ := hr
    simp [Bool.and_eq_true]

/-- Witness for C5: one record from each mode with a successful comparator
call. -/
theorem c5_pairwise_prediction_iff_witness :
    (({ return_code := 0, message := "", binary := "b"
        splice_type := "different_lib", replace := some "/r/liby.so"
        lib := "/o/libx.1.so", prediction := true } : AbigailRecord).prediction
        = true ↔
      (({ return_code := 0, message := "", binary := "b"
          splice_type := "different_lib", replace := some "/r/liby.so"
          lib := "/o/libx.1.so", prediction := true } : AbigailRecord).message = "" ∧
       ({ return_code := 0, message := "", binary := "b"
          splice_type := "different_lib", replace := some "/r/liby.so"
          lib := "/o/libx.1.so", prediction := true } : AbigailRecord).return_code = 0)) ∧
    (({ return_code := 0, message := "", binary := "b"
        splice_type := "same_lib", lib := "/s/libx.2.so"
        original_lib := some "/s/libx.2.so", prediction := true } : AbigailRecord).prediction
        = true ↔
      (({ return_code := 0, message := "", binary := "b"
          splice_type := "same_lib", lib := "/s/libx.2.so"
          original_lib := some "/s/libx.2.so", prediction := true } : AbigailRecord).message = "" ∧
       ({ return_code := 0, message := "", binary := "b"
          splice_type := "same_lib", lib := "/s/libx.2.so"
          original_lib := some "/s/libx.2.so", prediction := true } : AbigailRecord).return_code = 0)) :=
  ⟨(c5_pairwise_prediction_iff (fun _ _ _ => ⟨0, ""⟩) ["b"]
      [["/o/libx.1.so"]] [["/r/liby.so"]] [["/s/libx.2.so"]]).1 _ (by decide),
   (c5_pairwise_prediction_iff (fun _ _ _ => ⟨0, ""⟩) ["b"]
      [["/o/libx.1.so"]] [["/r/liby.so"]] [["/s/libx.2.so"]]).2 _ (by decide)⟩

/-- Claim C10: in the pairwise predictor's equivalence mode every emitted
record's `original_lib` field equals the spliced library path stored in its
`lib` field (the construction assigns the spliced `lib`, not the
original-tree candidate passed to the comparator). -/
theorem c10_original_lib_is_spliced_lib (run : String → String → String → CmdResult)
    (binaries : List String) (libs original_lib_sets : List (List String)) :
    ∀ r ∈ abigail_splice_equivalent_libs run binaries libs original_lib_sets,
      r.original_lib = some r.lib := by
  intro r hr
  simp only [abigail_splice_equivalent_libs, List.mem_flatMap, List.mem_map] at hr
  obtain ⟨binary, _, libset, _, lib, _, orig, _, rfl⟩ := hr
  rfl

/-- Witness for C10: a comparison where the original-tree candidate
`/o/libx.1.so` differs from the spliced lib `/s/libx.2.so`, yet the record's
`original_lib` carries the spliced lib. -/
theorem c10_original_lib_is_spliced_lib_witness :
    ({ return_code := 0, message := "/o/libx.1.so", binary := "b"
       splice_type := "same_lib", lib := "/s/libx.2.so"
       original_lib := some "/s/libx.2.so", prediction := false } : AbigailRecord).original_lib
      = some ({ return_code := 0, message := "/o/libx.1.so", binary := "b"
                splice_type := "same_lib", lib := "/s/libx.2.so"
                original_lib := some "/s/libx.2.so", prediction := false } : AbigailRecord).lib :=
  c10_original_lib_is_spliced_lib (fun _ o _ => ⟨0, o⟩) ["b"]
    [["/s/libx.2.so"]] [["/o/libx.1.so"]] _ (by decide)

/-- Counterexample to claim C6 as stated: with an extractor that fails
(exit code 1, no data), two successive `generate_cle_data` calls for the
same library and prefix invoke the extractor twice — nothing was persisted,
so the second call is not served from the cache. -/
theorem c6_failed_extraction_retried :
    ¬ ((generate_cle_data (fun _ => ⟨none, 1⟩) "/cache" "/x/lib.so" "smeagle" []).calls +
       (generate_cle_data (fun _ => ⟨none, 1⟩) "/cache" "/x/lib.so" "smeagle"
         (generate_cle_data (fun _ => ⟨none, 1⟩) "/cache" "/x/lib.so" "smeagle" []).fs).calls
      ≤ 1) := by
  decide

/-- Claim C6 (amended): if an entry already exists at the derived cache key,
`generate_cle_data` returns that key without invoking the extractor; and
whenever a call returns a key (cache hit or successful extraction), a second
call with the same library and prefix invokes the extractor zero times and
returns the same key with the cache unchanged. -/
theorem c6_cache_idempotent_on_success (extract : String → ExtractResult)
    (cache_dir lib pfx : String) (fs : List (String × String)) :
    ((fs.lookup (cacheKey cache_dir lib pfx)).isSome →
      generate_cle_data extract cache_dir lib pfx fs =
        ⟨some (cacheKey cache_dir lib pfx), fs, 0⟩) ∧
    (∀ k, (generate_cle_data extract cache_dir lib pfx fs).key = some k →
      generate_cle_data extract cache_dir lib pfx
          (generate_cle_data extract cache_dir lib pfx fs).fs =
        ⟨some k, (generate_cle_data extract cache_dir lib pfx fs).fs, 0⟩) := by
  constructor
  · intro h
    simp [generate_cle_data, h]
  · intro k hk
    by_cases h : (fs.lookup (cacheKey cache_dir lib pfx)).isSome
    · have h1 : generate_cle_data extract cache_dir lib pfx fs =
          ⟨some (cacheKey cache_dir lib pfx), fs, 0⟩ := by
        simp [generate_cle_data, h]
      rw [h1] at hk ⊢
      simp only [Option.some.injEq] at hk
      subst hk
      simp [generate_cle_data, h]
    · cases hd : (extract lib).data with
      | none =>
        have h1 : generate_cle_data extract cache_dir lib pfx fs = ⟨none, fs, 1⟩ := by
          simp [generate_cle_data, h, hd]
        rw [h1] at hk
        exact absurd hk (by simp)
      | some content =>
        by_cases hc : content ≠ "" ∧ (extract lib).return_code = 0
        · have h1 : generate_cle_data extract cache_dir lib pfx fs =
              ⟨some (cacheKey cache_dir lib pfx),
               (cacheKey cache_dir lib pfx, content) :: fs, 1⟩ := by
            simp [generate_cle_data, h, hd, hc]
          rw [h1] at hk ⊢
          simp only [Option.some.injEq] at hk
          subst hk
          simp [generate_cle_data, List.lookup]
        · have h1 : generate_cle_data extract cache_dir lib pfx fs = ⟨none, fs, 1⟩ := by
            simp [generate_cle_data, h, hd, hc]
          rw [h1] at hk
          exact absurd hk (by simp)

/-- Witness for C6's amended claim: a pre-populated cache entry is returned
with zero extractor calls, and after a successful first extraction the
second call is a pure cache hit. -/
theorem c6_cache_idempotent_on_success_witness :
    (generate_cle_data (fun _ => ⟨some "facts", 0⟩) "/c" "/x/lib.so" "smeagle"
        [(cacheKey "/c" "/x/lib.so" "smeagle", "cached")] =
      ⟨some (cacheKey "/c" "/x/lib.so" "smeagle"),
        [(cacheKey "/c" "/x/lib.so" "smeagle", "cached")], 0⟩) ∧
    (generate_cle_data (fun _ => ⟨some "facts", 0⟩) "/c" "/x/lib.so" "smeagle"
        (generate_cle_data (fun _ => ⟨some "facts", 0⟩) "/c" "/x/lib.so" "smeagle" []).fs =
      ⟨some (cacheKey "/c" "/x/lib.so" "smeagle"),
        (generate_cle_data (fun _ => ⟨some "facts", 0⟩) "/c" "/x/lib.so" "smeagle" []).fs,
        0⟩) :=
  ⟨(c6_cache_idempotent_on_success (fun _ => ⟨some "facts", 0⟩) "/c" "/x/lib.so"
      "smeagle" [(cacheKey "/c" "/x/lib.so" "smeagle", "cached")]).1 (by decide),
   (c6_cache_idempotent_on_success (fun _ => ⟨some "facts", 0⟩) "/c" "/x/lib.so"
      "smeagle" []).2 (cacheKey "/c" "/x/lib.so" "smeagle") (by decide)⟩

/-- Claim C7: in structural mode a spliced library whose symbol map has a
non-empty `missing` list yields exactly one immediate failing record with
`return_code = -1` and no dependency fact gathering or structural
comparison; a library with zero missing symbols proceeds to the structural
comparison (exactly one comparator call). -/
theorem c7_smeagle_missing_gate (extract : String → ExtractResult)
    (cache_dir : String)
    (compat : String → List String → List (String × List String) → SmeagleRecord)
    (metadata : List (String × SymbolMap)) (lib facts_path : String)
    (fs : List (String × String)) (sm : SymbolMap)
    (h : metadata.lookup lib = some sm) :
    (sm.missing ≠ [] →
      test_lib extract cache_dir compat metadata lib facts_path fs =
        some ⟨[{ return_code := -1, lib := some lib, prediction := false
                 data := sm.missing
                 message := "Library is missing symbols, so smeagle model would fail." }],
          0, 0⟩) ∧
    (sm.missing = [] →
      ∀ out, test_lib extract cache_dir compat metadata lib facts_path fs = some out →
        out.compatCalls = 1) := by
  constructor
  · intro hm
    simp [test_lib, h, List.isEmpty_iff, hm]
  · intro hm out hout
    simp only [test_lib, h, hm, List.isEmpty_nil, Bool.not_true, Bool.false_eq_true,
      if_false] at hout
    cases hst : sm.found.foldlM (stepDep extract cache_dir) ⟨[], [], fs, 0⟩ with
    | none => simp [hst] at hout
    | some st =>
      simp only [hst, Option.some.injEq] at hout
      subst hout
      rfl

/-- Witness for C7: a library missing symbol `bar` gets the single failing
record; a library with no missing symbols and no found symbols gets exactly
one structural-comparator call. -/
theorem c7_smeagle_missing_gate_witness :
    (test_lib (fun _ => ⟨none, 1⟩) "/c" (fun _ _ _ => ⟨0, none, true, [], ""⟩)
        [("/s/lib1.so", ⟨[], ["bar"], []⟩)] "/s/lib1.so" "/c/f.json" [] =
      some ⟨[{ return_code := -1, lib := some "/s/lib1.so", prediction := false
               data := ["bar"]
               message := "Library is missing symbols, so smeagle model would fail." }],
        0, 0⟩) ∧
    (⟨[⟨0, none, true, [], ""⟩], 0, 1⟩ : TestLibOutcome).compatCalls = 1 :=
  ⟨(c7_smeagle_missing_gate (fun _ => ⟨none, 1⟩) "/c"
      (fun _ _ _ => ⟨0, none, true, [], ""⟩)
      [("/s/lib1.so", ⟨[], ["bar"], []⟩)] "/s/lib1.so" "/c/f.json" []
      ⟨[], ["bar"], []⟩ (by decide)).1 (by decide),
   (c7_smeagle_missing_gate (fun _ => ⟨none, 1⟩) "/c"
      (fun _ _ _ => ⟨0, none, true, [], ""⟩)
      [("/s/lib1.so", ⟨[], [], []⟩)] "/s/lib1.so" "/c/f.json" []
      ⟨[], [], []⟩ (by decide)).2 rfl
      ⟨[⟨0, none, true, [], ""⟩], 0, 1⟩ (by decide)⟩

/-- Claim C8: with the cache-directory environment variable unset, the
cache directory is the temp-rooted default and the cleanup flag stays
`false`, so the directory is never removed at the end of the run — the
`elif not self.cache_dir` branch that would arm cleanup is unreachable,
because `os.environ.get` already substituted the non-empty default. -/
theorem c8_default_cache_dir_never_removed (tmpdir : String)
    (path_exists : String → Bool) (fresh_tmp : String) (exists_at_end : Bool) :
    (smeagle_cache_setup none tmpdir path_exists fresh_tmp).cache_dir =
      tmpdir ++ "/spliced-cache" ∧
    smeagle_cache_removed (smeagle_cache_setup none tmpdir path_exists fresh_tmp)
      exists_at_end = false := by
  have hne : tmpdir ++ "/spliced-cache" ≠ "" := by
    intro hcontra
    have hlen := congrArg String.length hcontra
    simp [String.length_append] at hlen
    exact absurd hlen.2 (by decide)
  unfold smeagle_cache_setup smeagle_cache_removed
  simp only [Option.getD]
  by_cases hpe : path_exists (tmpdir ++ "/spliced-cache") = true
  · simp [hne, hpe]
  · simp [hne, hpe]

end Spliced
